import Mathlib

/-! Verification of the quoting and risk engine in `V2_market_maker.py`
(`ProfessionalMarketMaker`, `OrderManager`, `RiskParameters`).

Shallow embedding conventions:
* Python floats are modelled as rationals (`ℚ`).
* A parsed order-book level carries `Option ℚ` fields: `none` models a
  string on which `float(...)` raises (`ValueError` / `TypeError`).
* A depth snapshot that is falsy or lacks the `bids` / `asks` keys is
  modelled as `none : Option Book`.
* `np.log`, `np.sqrt` and `np.std` are transcendental; they enter only
  through the market-regime detector and the return bookkeeping, and are
  abstracted as an explicit parameter record `NumModel`.  Every theorem
  below holds for an arbitrary `NumModel`.
* Sites where the Python code can raise `ZeroDivisionError` are modelled
  explicitly with the behaviour of the enclosing `except` handler; each
  such site is marked with a comment.
* Unused state of the Python class (`prev_ema_s`, `position_start_time`,
  `metrics`, `volume_data`, `order_history`, `tick_size`, `contract_id`)
  is omitted: no embedded operation reads it.
-/

/-- Market regimes (`class MarketRegime(Enum)`). -/
inductive MarketRegime
  | NORMAL
  | HIGH_VOL
  | LOW_VOL
  | STRESS
deriving DecidableEq

/-- Fields of the `RiskParameters` dataclass. -/
structure RiskParameters where
  Q_max : ℚ
  risk_threshold : ℚ
  base_order_size_usd : ℚ
  gamma : ℚ
  kappa : ℚ
  sigma : ℚ
  phi : ℚ
  rebate_rate : ℚ
  spread_multiplier : ℚ
deriving DecidableEq

/-- Default field values of the `RiskParameters` dataclass. -/
def defaultRiskParameters : RiskParameters :=
  { Q_max := 0.5
    risk_threshold := 0.3
    base_order_size_usd := 100
    gamma := 0.10
    kappa := 1.8
    sigma := 0.30
    phi := 0.005
    rebate_rate := 1 / 10000
    spread_multiplier := 1.5 }

/-- One level of a depth snapshot, as the strings the venue sent:
`price` / `size` hold the result of `float(...)`, `none` when parsing
raises. -/
structure BookLevel where
  price : Option ℚ
  size : Option ℚ
deriving DecidableEq

/-- The dict `{'bids': ..., 'asks': ...}` handed to the engine. -/
structure Book where
  bids : List BookLevel
  asks : List BookLevel
deriving DecidableEq

/-- Order side; the source uses the strings `'buy'` and `'sell'`. -/
inductive Side
  | buy
  | sell
deriving DecidableEq

/-- Entry of `OrderManager.active_orders` (`order_id -> order_info`). -/
structure OrderInfo where
  side : Side
  price : ℚ
  size : ℚ
  desired_price : ℚ
  create_time : ℚ
deriving DecidableEq

/-- Mutable state of `OrderManager`:`active_orders`, `last_order_update`
and the constant `update_interval` (0.1 in `__init__`). -/
structure OrderManager where
  active_orders : List (Nat × OrderInfo)
  last_order_update : ℚ
  update_interval : ℚ
deriving DecidableEq

/-- A call the order manager makes against the venue adapter. -/
inductive VenueAction
  | cancel (order_id : Nat)
  | placeBuy (price : ℚ) (size : ℚ)
  | placeSell (price : ℚ) (size : ℚ)
deriving DecidableEq

/-- Environment of one `smart_order_update` call: whether
`get_active_orders` succeeds, which orders it reports, and the id each
placement call returns (`none` models both a `None` id and a raised
placement exception: in either case no entry is recorded). -/
structure OrderEnv where
  fetch_ok : Bool
  venue_orders : List Nat
  buy_result : Option Nat
  sell_result : Option Nat
deriving DecidableEq

/-- Abstract model of the `numpy` functions the detector uses. -/
structure NumModel where
  log : ℚ → ℚ
  sqrt : ℚ → ℚ
  std : List ℚ → ℚ

/-- Mutable state of `ProfessionalMarketMaker` read or written by the
embedded operations. -/
structure ProfessionalMarketMaker where
  risk_params : RiskParameters
  q : ℚ
  real_q : ℚ
  t : ℚ
  T : ℚ
  market_regime : MarketRegime
  realized_vol : ℚ
  current_spread : ℚ
  liquidity_ratio : ℚ
  dynamic_spread_multiplier : ℚ
  dynamic_order_multiplier : ℚ
  dynamic_gamma : ℚ
  dynamic_Q_max : ℚ
  mid_price : ℚ
  price_log : List ℚ
  min_quantity : ℚ
  order_manager : OrderManager
  last_position_sync : ℚ
  position_sync_interval : ℚ
deriving DecidableEq

/-- Python slice `xs[-n:]`. -/
def lastN {α : Type} (n : Nat) (xs : List α) : List α :=
  xs.drop (xs.length - n)

/-- Python truthiness of an optional float (`if bid_price:`). -/
def truthy (x : Option ℚ) : Bool :=
  match x with
  | none => false
  | some v => if v = 0 then false else true

/-- Embedding of `validate_and_adjust_prices(bid_price, ask_price, s)`
(source lines 451-481). -/
def validate_and_adjust_prices (bid_price ask_price : Option ℚ) (s : ℚ) :
    Option ℚ × Option ℚ :=
  let min_valid_price := s * 0.8
  let max_valid_price := s * 1.2
  let bid1 : Option ℚ :=
    match bid_price with
    | none => none
    | some b =>
      some (if b ≥ s then s * 0.999
        else if b < min_valid_price then min_valid_price
        else b)
  let ask1 : Option ℚ :=
    match ask_price with
    | none => none
    | some a =>
      some (if a ≤ s then s * 1.001
        else if a > max_valid_price then max_valid_price
        else a)
  match bid1, ask1 with
  | some b, some a =>
    -- `if bid_price and ask_price and ask_price <= bid_price:` -- Python
    -- truthiness: a price equal to 0.0 is falsy and skips the repair.
    if b ≠ 0 ∧ a ≠ 0 ∧ a ≤ b then
      let min_spread := s * 0.001
      (some b, some (max a (b + min_spread)))
    else (some b, some a)
  | _, _ => (bid1, ask1)

/-- The bid branch of the sanitizer, as a standalone function (used only
to state and prove lemmas about `validate_and_adjust_prices`). -/
def bidClamp (s b : ℚ) : ℚ :=
  if b ≥ s then s * 0.999
  else if b < s * 0.8 then s * 0.8
  else b

/-- The ask branch of the sanitizer, as a standalone function. -/
def askClamp (s a : ℚ) : ℚ :=
  if a ≤ s then s * 1.001
  else if a > s * 1.2 then s * 1.2
  else a

/-- Embedding of `calculate_competitive_spread(s, order_book)` (source lines 289-315).
The order-book read inside the function sits in a `try` block, feeds only
a log line, and every exception there is caught; it is kept here as a
dead binding.  `abs(q) / dynamic_Q_max` raises `ZeroDivisionError` when
`dynamic_Q_max = 0`, which propagates to the caller (`Except.error`). -/
def calculate_competitive_spread (st : ProfessionalMarketMaker)
    (order_book : Option Book) : Except Unit ℚ :=
  let time_left := max 0.001 (st.T - st.t)
  let vol_component := st.dynamic_gamma * st.realized_vol ^ 2 * time_left
  if st.dynamic_Q_max = 0 then Except.error ()
  else
    let inventory_pressure := 0.3 * (|st.q| / st.dynamic_Q_max) * st.current_spread
    let market_spread := st.current_spread * st.dynamic_spread_multiplier
    let risk_spread := vol_component + inventory_pressure + market_spread
    let _competitor_spread : Option ℚ :=
      order_book.bind fun ob =>
        (ob.bids.getLast?.bind BookLevel.price).bind fun top_bid =>
          (ob.asks.head?.bind BookLevel.price).map fun top_ask =>
            top_ask - top_bid
    Except.ok risk_spread

/-- The inventory-tier block of `generate_intelligent_quotes`
(source lines 406-439), factored out verbatim: `q` and
`inventory_ratio` are the inventory and `abs(q)/dynamic_Q_max`,
`min_ask` / `max_bid` the parsed `asks[0][0]` / `bids[-1][0]`. -/
def quoteTiers (q inventory_ratio rebate_rate s half_spread min_ask max_bid : ℚ) :
    Option ℚ × Option ℚ :=
  if inventory_ratio ≥ 0.9 then
    if q > 0 then (none, some (max_bid * (1 + rebate_rate)))
    else (some (min_ask * (1 - rebate_rate)), none)
  else if inventory_ratio ≥ 0.7 then
    if q > 0 then (some (s - half_spread * 1.8), some (s + half_spread * 0.5))
    else (some (s - half_spread * 0.5), some (s + half_spread * 1.8))
  else if inventory_ratio ≥ 0.4 then
    if q > 0 then (some (s - half_spread * 1.3), some (s + half_spread * 0.9))
    else (some (s - half_spread * 0.9), some (s + half_spread * 1.3))
  else (some (s - half_spread), some (s + half_spread))

/-- Embedding of `generate_intelligent_quotes(s, order_book)` (source lines 371-449).
`none : Option Book` models a falsy snapshot or one missing the `bids`
or `asks` key.  When `dynamic_Q_max = 0` the ratio computation raises
`ZeroDivisionError` before the snapshot check and the outer handler
returns `(None, None)`.  A failed parse of `asks[0][0]` or `bids[-1][0]`
(empty list, or `float` raising) is caught and yields `(None, None)`. -/
def generate_intelligent_quotes (st : ProfessionalMarketMaker) (s : ℚ)
    (order_book : Option Book) : Option ℚ × Option ℚ :=
  if st.dynamic_Q_max = 0 then (none, none)
  else
    let inventory_ratio := |st.q| / st.dynamic_Q_max
    match order_book with
    | none => (none, none)
    | some ob =>
      let spread :=
        match calculate_competitive_spread st (some ob) with
        | Except.ok sp => sp
        | Except.error _ => s * st.risk_params.rebate_rate
      let half_spread := spread / 2
      match ob.asks.head?.bind BookLevel.price, ob.bids.getLast?.bind BookLevel.price with
      | some min_ask, some max_bid =>
        quoteTiers st.q inventory_ratio st.risk_params.rebate_rate s half_spread min_ask max_bid
      | _, _ => (none, none)

/-- Embedding of `execute_real_hedge(s)` (source lines 483-521), as the market-order
request it sends, or `none` when it does nothing.  The source passes a
positive quantity to `close_position_with_market_order` when long
(a sell) and a negative one when short (a buy); we record the side and
the unsigned size.  When `dynamic_Q_max - risk_threshold = 0` the ratio
raises `ZeroDivisionError` inside the `try`, which is caught: no order
is sent. -/
def execute_real_hedge (st : ProfessionalMarketMaker) : Option (Side × ℚ) :=
  if |st.real_q| ≤ st.risk_params.risk_threshold then none
  else if st.dynamic_Q_max - st.risk_params.risk_threshold = 0 then none
  else
    let excess_ratio := (|st.real_q| - st.risk_params.risk_threshold) /
      (st.dynamic_Q_max - st.risk_params.risk_threshold)
    let hedge_ratio := min 1.0 (0.3 + 0.7 * excess_ratio)
    let hedge_size_sol := |st.real_q| * hedge_ratio
    if st.real_q > 0 then some (Side.sell, hedge_size_sol)
    else some (Side.buy, hedge_size_sol)

/-- Python dict assignment `active_orders[order_id] = info`. -/
def dictInsert (m : List (Nat × OrderInfo)) (k : Nat) (v : OrderInfo) :
    List (Nat × OrderInfo) :=
  (m.filter fun p => p.1 != k) ++ [(k, v)]

/-- Embedding of `OrderManager.smart_order_update(desired_bid, desired_ask, size_sol)`
(source lines 61-129).  Returns the bool result, the updated manager
state, and the sequence of venue calls issued.  The throttle check
(`current_time - last_order_update < update_interval`) returns `False`
with no side effects; a `get_active_orders` failure is caught by the
outer handler and also returns `False` with no state change.  Cancels
are best-effort (a cancel failure does not remove the action or abort
the rest); the tracked map is not purged by cancels, matching the
source. -/
def smart_order_update (om : OrderManager) (current_time : ℚ)
    (desired_bid desired_ask : Option ℚ) (size_sol : ℚ) (env : OrderEnv) :
    Bool × OrderManager × List VenueAction :=
  if current_time - om.last_order_update < om.update_interval then
    (false, om, [])
  else if env.fetch_ok = false then
    (false, om, [])
  else
    let cancel_actions := env.venue_orders.map VenueAction.cancel
    -- `if desired_bid:` / `if desired_ask:` -- Python truthiness: a
    -- price of 0.0 is falsy and that side is not placed.
    let stage1 : OrderManager × List VenueAction :=
      match desired_bid with
      | some b =>
        if b = 0 then (om, [])
        else
          (match env.buy_result with
           | some oid =>
             { om with active_orders :=
                 (dictInsert om.active_orders oid ⟨Side.buy, b, size_sol, b, current_time⟩) }
           | none => om,
           [VenueAction.placeBuy b size_sol])
      | none => (om, [])
    let stage2 : OrderManager × List VenueAction :=
      match desired_ask with
      | some a =>
        if a = 0 then stage1
        else
          (match env.sell_result with
           | some oid =>
             { stage1.1 with active_orders :=
                 (dictInsert stage1.1.active_orders oid ⟨Side.sell, a, size_sol, a, current_time⟩) }
           | none => stage1.1,
           stage1.2 ++ [VenueAction.placeSell a size_sol])
      | none => stage1
    (true, { stage2.1 with last_order_update := current_time },
      cancel_actions ++ stage2.2)

/-- Embedding of `sync_real_position()` (source lines 200-214).  `query_result` is
the outcome of `get_account_positions`: `none` models a raised
exception, which is caught and logged; the stale state is kept.  The
function returns `True` on every path. -/
def sync_real_position (st : ProfessionalMarketMaker) (current_time : ℚ)
    (query_result : Option ℚ) : Bool × ProfessionalMarketMaker :=
  if current_time - st.last_position_sync < st.position_sync_interval then
    (true, st)
  else
    match query_result with
    | some p =>
      (true, { st with real_q := p, q := p, last_position_sync := current_time })
    | none => (true, st)

/-- The per-regime multiplier table of `_adjust_parameters_by_regime`
(gamma, Q_max, order_size, spread). -/
def regimeMultipliers (r : MarketRegime) : ℚ × ℚ × ℚ × ℚ :=
  match r with
  | MarketRegime.NORMAL => (1.0, 2.0, 1.0, 1.0)
  | MarketRegime.HIGH_VOL => (1.4, 1.2, 0.5, 1.8)
  | MarketRegime.LOW_VOL => (0.7, 2.6, 1.4, 0.7)
  | MarketRegime.STRESS => (2.0, 0.8, 0.3, 2.5)

/-- Embedding of `_adjust_parameters_by_regime()` (source lines 274-287): rescales
the four dynamic fields from the base `RiskParameters`; it writes
nothing else. -/
def adjust_parameters_by_regime (st : ProfessionalMarketMaker) :
    ProfessionalMarketMaker :=
  let mult := regimeMultipliers st.market_regime
  { st with
    dynamic_gamma := st.risk_params.gamma * mult.1
    dynamic_Q_max := st.risk_params.Q_max * mult.2.1
    dynamic_order_multiplier := mult.2.2.1
    dynamic_spread_multiplier := mult.2.2.2 }

/-- Sum of the parsed sizes of some book levels (`float(size)` over
`order_book['bids'][:3]`); `none` when any parse raises. -/
def sumSizes (levels : List BookLevel) : Option ℚ :=
  (levels.mapM BookLevel.size).map List.sum

/-- Tail of `enhanced_market_regime_detection`: liquidity pressure,
composite signal, regime switch and parameter adjustment (source lines
243-268). -/
def regimeSignalUpdate (nm : NumModel) (st : ProfessionalMarketMaker) :
    Bool × ProfessionalMarketMaker :=
  let pressure :=
    if st.liquidity_ratio > 0 then |nm.log st.liquidity_ratio| * 0.5 else 0.5
  let vol_ratio := st.realized_vol / st.risk_params.sigma
  let composite_signal := 0.7 * vol_ratio + 0.3 * pressure
  let new_regime :=
    if composite_signal > 2.0 then MarketRegime.STRESS
    else if composite_signal > 1.5 then MarketRegime.HIGH_VOL
    else if composite_signal < 0.7 then MarketRegime.LOW_VOL
    else MarketRegime.NORMAL
  if new_regime ≠ st.market_regime then
    (true, adjust_parameters_by_regime { st with market_regime := new_regime })
  else (true, st)

/-- Embedding of `enhanced_market_regime_detection(order_book)` (source lines
216-272).  Requires 10 stored prices; a zero among the return
denominators raises `ZeroDivisionError`, caught with no state change;
a size-parse failure in the liquidity block is caught after
`realized_vol` has already been updated, matching the source order of
mutations. -/
def enhanced_market_regime_detection (nm : NumModel)
    (st : ProfessionalMarketMaker) (order_book : Option Book) :
    Bool × ProfessionalMarketMaker :=
  if st.price_log.length < 10 then (false, st)
  else
    let recent := lastN 10 st.price_log
    if recent.dropLast.any (fun p => p = 0) then (false, st)
    else
      let returns := (recent.zip recent.tail).map fun pr => nm.log (pr.2 / pr.1)
      if returns.length < 5 then (false, st)
      else
        let current_vol := nm.std returns * nm.sqrt (252 * 86400)
        let st1 := { st with realized_vol := 0.7 * st.realized_vol + 0.3 * current_vol }
        match order_book with
        | some ob =>
          match sumSizes (ob.bids.take 3), sumSizes (ob.asks.take 3) with
          | some bid_depth, some ask_depth =>
            let st2 := { st1 with
              liquidity_ratio := if ask_depth > 0 then bid_depth / ask_depth else 1.0 }
            regimeSignalUpdate nm st2
          | _, _ => (false, st1)
        | none => regimeSignalUpdate nm st1

/-- Embedding of `calculate_dynamic_order_size(s)` (source lines 344-369).  In ℚ a
division by zero is 0 where the Python would raise and be caught by
`step`; no claim below depends on such a state. -/
def calculate_dynamic_order_size (st : ProfessionalMarketMaker) (s : ℚ) : ℚ :=
  let base_size_usd := st.risk_params.base_order_size_usd * st.dynamic_order_multiplier
  let inventory_risk_penalty := 1.0 - 0.4 * (|st.q| / st.dynamic_Q_max)
  let vol_adjustment := 1.0 / (1.0 + 0.5 * (st.realized_vol / st.risk_params.sigma - 1.0))
  let liquidity_adjustment := min 1.5 (max 0.3 st.liquidity_ratio)
  base_size_usd * inventory_risk_penalty * vol_adjustment * liquidity_adjustment

/-- Observable outcome of one `step` call. -/
structure StepResult where
  skipped : Bool
  bid : Option ℚ
  ask : Option ℚ
  hedge : Option (Side × ℚ)
  submit : Option (Bool × List VenueAction)
  state : ProfessionalMarketMaker
deriving DecidableEq

/-- Embedding of `step(s, order_book, dt)` (source lines 523-557): position sync,
regime detection, hedge, quoting, sizing, then `smart_order_update`
guarded by `if bid_price or ask_price:` (Python truthiness).  The
`return` under a failed sync is kept although `sync_real_position`
always returns `True`.  `t += dt` runs at the end of the `try`; on the
exception paths noted in the component comments the source would skip
it, which no claim below depends on. -/
def step (nm : NumModel) (st0 : ProfessionalMarketMaker) (s : ℚ)
    (order_book : Option Book) (current_time : ℚ) (query_result : Option ℚ)
    (env : OrderEnv) (dt : ℚ) : StepResult :=
  let sync := sync_real_position st0 current_time query_result
  if sync.1 = false then
    { skipped := true, bid := none, ask := none, hedge := none,
      submit := none, state := sync.2 }
  else
    let st1 := { sync.2 with mid_price := s }
    let st2 := (enhanced_market_regime_detection nm st1 order_book).2
    let hedge := execute_real_hedge st2
    let quotes := generate_intelligent_quotes st2 s order_book
    let order_size_usd := calculate_dynamic_order_size st2 s
    let size_sol := max (order_size_usd / s) st2.min_quantity
    if truthy quotes.1 || truthy quotes.2 then
      let r := smart_order_update st2.order_manager current_time
        quotes.1 quotes.2 size_sol env
      { skipped := false, bid := quotes.1, ask := quotes.2, hedge := hedge,
        submit := some (r.1, r.2.2),
        state := { st2 with order_manager := r.2.1, t := st2.t + dt } }
    else
      { skipped := false, bid := quotes.1, ask := quotes.2, hedge := hedge,
        submit := none, state := { st2 with t := st2.t + dt } }

/-- Loop-carried state of `run()` (source lines 559-622): the engine
object, the one-shot `reinit_q_max` flag, and the local
`recent_returns` list. -/
structure RunState where
  mm : ProfessionalMarketMaker
  reinit_q_max : Bool
  recent_returns : List ℚ
deriving DecidableEq

/-- Price bookkeeping and `step` call of one loop iteration (source
lines 607-616), after the one-time re-derivation block.  A zero last
price makes `np.log(s / price_log[-1])` raise in the source, ending the
tick early; that path differs here only in fields no claim reads. -/
def afterReinit (nm : NumModel) (rs : RunState) (s : ℚ)
    (order_book : Option Book) (current_time : ℚ) (query_result : Option ℚ)
    (env : OrderEnv) (dt : ℚ) : RunState :=
  let rr :=
    match rs.mm.price_log.getLast? with
    | some last =>
      let rr1 := rs.recent_returns ++ [nm.log (s / last)]
      if rr1.length > 20 then lastN 20 rr1 else rr1
    | none => rs.recent_returns
  let st := { rs.mm with price_log := lastN 1000 (rs.mm.price_log ++ [s]) }
  let sres := step nm st s order_book current_time query_result env dt
  { mm := sres.state, reinit_q_max := rs.reinit_q_max, recent_returns := rr }

/-- One iteration of the `while True:` body of `run()` (source lines
569-622).  `bids`/`asks` are the raw venue lists; the snapshot handed
to `step` is `{'bids': bids[-5:], 'asks': asks[:5]}`.  A price-parse
failure raises and the loop's outer handler skips the tick; empty
sides skip it explicitly.  In the one-time block, a configured
`base_order_size_usd ≤ 10` is first replaced by 50; `s = 0` would then
raise `ZeroDivisionError` after that replacement, ending the tick. -/
def runTick (nm : NumModel) (rs : RunState) (bids asks : List BookLevel)
    (current_time : ℚ) (query_result : Option ℚ) (env : OrderEnv) (dt : ℚ) :
    RunState :=
  let order_book : Option Book := some { bids := lastN 5 bids, asks := asks.take 5 }
  match (if bids.isEmpty then some [] else (lastN 5 bids).mapM BookLevel.price),
        (if asks.isEmpty then some [] else (asks.take 5).mapM BookLevel.price) with
  | some bf, some af =>
    match bf, af with
    | b0 :: brest, a0 :: arest =>
      let max_bid := brest.foldl max b0
      let min_ask := arest.foldl min a0
      let s := (max_bid + min_ask) / 2
      let st := { rs.mm with current_spread := min_ask - max_bid }
      if rs.reinit_q_max = false then
        let rp0 := st.risk_params
        let rp1 : RiskParameters :=
          if rp0.base_order_size_usd ≤ 10 then { rp0 with base_order_size_usd := 50 }
          else rp0
        if s = 0 then
          { mm := { st with risk_params := rp1 }, reinit_q_max := false,
            recent_returns := rs.recent_returns }
        else
          let rt := rp1.base_order_size_usd * 5 / s
          let rp2 := { rp1 with risk_threshold := rt, Q_max := rt * 2 }
          let st2 := { st with
            risk_params := rp2
            dynamic_gamma := rp2.gamma
            dynamic_Q_max := rp2.Q_max }
          afterReinit nm
            { mm := st2, reinit_q_max := true, recent_returns := rs.recent_returns }
            s order_book current_time query_result env dt
      else
        afterReinit nm
          { mm := st, reinit_q_max := rs.reinit_q_max, recent_returns := rs.recent_returns }
          s order_book current_time query_result env dt
    | _, _ => rs
  | _, _ => rs

/-- A concrete engine state mirroring the `__init__` defaults, used by
the concrete evaluations below. -/
def baseMaker : ProfessionalMarketMaker :=
  { risk_params := defaultRiskParameters
    q := 0, real_q := 0, t := 0, T := 1
    market_regime := MarketRegime.NORMAL
    realized_vol := 0.3, current_spread := 0.01, liquidity_ratio := 1
    dynamic_spread_multiplier := 2, dynamic_order_multiplier := 1
    dynamic_gamma := 0.1, dynamic_Q_max := 0.5
    mid_price := 0, price_log := [], min_quantity := 0
    order_manager := { active_orders := [], last_order_update := 0, update_interval := 0.1 }
    last_position_sync := 0, position_sync_interval := 1 }

/-- A trivial numeric model, usable whenever the concrete run never
reaches the numpy calls. -/
def nmZero : NumModel :=
  { log := fun _ => 0, sqrt := fun _ => 0, std := fun _ => 0 }

/-- A benign order-call environment: fetch succeeds, no resting orders,
both placements return ids. -/
def envOk : OrderEnv :=
  { fetch_ok := true, venue_orders := [], buy_result := some 1, sell_result := some 2 }

/-- Parsed snapshot used by concrete evaluations: best bid 90 at
`bids[-1]`, best ask 110 at `asks[0]`. -/
def bookTier : Book :=
  { bids := [⟨some 90, some 1⟩], asks := [⟨some 110, some 1⟩] }

/-- Engine state with critical long inventory (`ratio = 0.95`). -/
def makerCritical : ProfessionalMarketMaker :=
  { baseMaker with q := 9.5, dynamic_Q_max := 10 }

/-- High-tier long state for the tier counterexample: `ratio = 0.8`,
computed spread 2 (so `half_spread = 1`): `vol_component = 2*1^2*1`,
zero `current_spread` kills the inventory and market terms, holding the
spread fixed across the inventory change. -/
def makerTierHigh : ProfessionalMarketMaker :=
  { baseMaker with
    q := 8
    dynamic_Q_max := 10
    dynamic_gamma := 2
    realized_vol := 1
    current_spread := 0 }

/-- The same state pushed over the 0.9 threshold (`ratio = 0.95`). -/
def makerTierCritical : ProfessionalMarketMaker :=
  { makerTierHigh with q := 9.5 }

/-- Engine state and book for the sync-failure demonstration. -/
def bookDemo : Book :=
  { bids := [⟨some 99, some 1⟩], asks := [⟨some 101, some 1⟩] }

/-- Loop state entering the first tick with a configured base order
size of 10 (at the clamp boundary). -/
def rsInit : RunState :=
  { mm := { baseMaker with
      risk_params := { defaultRiskParameters with base_order_size_usd := 10 } }
    reinit_q_max := false
    recent_returns := [] }

lemma bidClamp_bounds (s b : ℚ) (hs : 0 < s) :
    s * 0.8 ≤ bidClamp s b ∧ bidClamp s b < s := by
  unfold bidClamp
  split_ifs <;> constructor <;> linarith

lemma askClamp_bounds (s a : ℚ) (hs : 0 < s) :
    s < askClamp s a ∧ askClamp s a ≤ s * 1.2 := by
  unfold askClamp
  split_ifs <;> constructor <;> linarith

lemma validate_eq_pair (s b a : ℚ) :
    validate_and_adjust_prices (some b) (some a) s
      = if bidClamp s b ≠ 0 ∧ askClamp s a ≠ 0 ∧ askClamp s a ≤ bidClamp s b
          then (some (bidClamp s b), some (max (askClamp s a) (bidClamp s b + s * 0.001)))
          else (some (bidClamp s b), some (askClamp s a)) := rfl

lemma validate_some_some (s b a : ℚ) (hs : 0 < s) :
    validate_and_adjust_prices (some b) (some a) s
      = (some (bidClamp s b), some (askClamp s a)) := by
  have hb := bidClamp_bounds s b hs
  have ha := askClamp_bounds s a hs
  rw [validate_eq_pair, if_neg]
  push_neg
  intro _ _
  linarith [hb.2, ha.1]

lemma validate_some_none (s b : ℚ) :
    validate_and_adjust_prices (some b) none s = (some (bidClamp s b), none) := rfl

lemma validate_none_some (s a : ℚ) :
    validate_and_adjust_prices none (some a) s = (none, some (askClamp s a)) := rfl

lemma validate_none_none (s : ℚ) :
    validate_and_adjust_prices none none s = (none, none) := rfl

lemma bidClamp_idem (s b : ℚ) (hs : 0 < s) :
    bidClamp s (bidClamp s b) = bidClamp s b := by
  have hb := bidClamp_bounds s b hs
  have e : bidClamp s (bidClamp s b)
      = if bidClamp s b ≥ s then s * 0.999
        else if bidClamp s b < s * 0.8 then s * 0.8
        else bidClamp s b := rfl
  rw [e, if_neg (by simp only [ge_iff_le, not_le]; exact hb.2),
    if_neg (by simp only [not_lt]; exact hb.1)]

lemma askClamp_idem (s a : ℚ) (hs : 0 < s) :
    askClamp s (askClamp s a) = askClamp s a := by
  have ha := askClamp_bounds s a hs
  have e : askClamp s (askClamp s a)
      = if askClamp s a ≤ s then s * 1.001
        else if askClamp s a > s * 1.2 then s * 1.2
        else askClamp s a := rfl
  rw [e, if_neg (by simp only [not_le]; exact ha.1),
    if_neg (by simp only [gt_iff_lt, not_lt]; exact ha.2)]

/-- C1: for every mid-price `s > 0` and every candidate pair with both
sides present and non-zero, `validate_and_adjust_prices` returns a pair
with both sides present and strictly `bid < ask`: no inversion survives
sanitization. -/
theorem sanitizer_no_inversion (s b a : ℚ) (hs : 0 < s)
    (hb : b ≠ 0) (ha : a ≠ 0) :
    ∃ b2 a2, validate_and_adjust_prices (some b) (some a) s = (some b2, some a2)
      ∧ b2 < a2 := by
  refine ⟨bidClamp s b, askClamp s a, validate_some_some s b a hs, ?_⟩
  have h1 := bidClamp_bounds s b hs
  have h2 := askClamp_bounds s a hs
  linarith [h1.2, h2.1]

/-- C1 witness: the theorem at `s = 100`, `bid = 99`, `ask = 101`. -/
theorem sanitizer_no_inversion_witness :
    ∃ b2 a2,
      validate_and_adjust_prices (some 99) (some 101) 100 = (some b2, some a2)
        ∧ b2 < a2 :=
  sanitizer_no_inversion 100 99 101 (by norm_num) (by norm_num) (by norm_num)

/-- C2: `validate_and_adjust_prices` is idempotent.  First, a pair that
already satisfies the band and ordering rules (`bid` in `[0.8s, 1.2s]`
with `bid < s`, `ask` in `[0.8s, 1.2s]` with `ask > s`, `ask > bid`
when both are present) is returned unchanged; second, applying the
sanitizer twice to any input equals applying it once. -/
theorem sanitizer_idempotent (s : ℚ) (bid ask : Option ℚ) (hs : 0 < s) :
    ((∀ b, bid = some b → s * 0.8 ≤ b ∧ b ≤ s * 1.2 ∧ b < s) →
     (∀ a, ask = some a → s * 0.8 ≤ a ∧ a ≤ s * 1.2 ∧ s < a) →
     (∀ b a, bid = some b → ask = some a → b < a) →
     validate_and_adjust_prices bid ask s = (bid, ask)) ∧
    validate_and_adjust_prices
        (validate_and_adjust_prices bid ask s).1
        (validate_and_adjust_prices bid ask s).2 s
      = validate_and_adjust_prices bid ask s := by
  constructor
  · intro hbid hask _
    match bid, ask with
    | none, none => rfl
    | none, some a =>
      obtain ⟨ha1, ha2, ha3⟩ := hask a rfl
      rw [validate_none_some]
      unfold askClamp
      split_ifs <;> first | rfl | (exfalso; linarith)
    | some b, none =>
      obtain ⟨hb1, hb2, hb3⟩ := hbid b rfl
      rw [validate_some_none]
      unfold bidClamp
      split_ifs <;> first | rfl | (exfalso; linarith)
    | some b, some a =>
      obtain ⟨hb1, hb2, hb3⟩ := hbid b rfl
      obtain ⟨ha1, ha2, ha3⟩ := hask a rfl
      rw [validate_some_some s b a hs]
      unfold bidClamp askClamp
      split_ifs <;> first | rfl | (exfalso; linarith)
  · match bid, ask with
    | none, none => rfl
    | none, some a =>
      rw [validate_none_some, validate_none_some, askClamp_idem s a hs]
    | some b, none =>
      rw [validate_some_none, validate_some_none, bidClamp_idem s b hs]
    | some b, some a =>
      rw [validate_some_some s b a hs,
        validate_some_some s (bidClamp s b) (askClamp s a) hs,
        bidClamp_idem s b hs, askClamp_idem s a hs]

/-- C2 witness: the theorem at `s = 100`, `bid = 99`, `ask = 101`; the
valid pair is returned unchanged and a second application is a no-op. -/
theorem sanitizer_idempotent_witness :
    validate_and_adjust_prices (some 99) (some 101) 100 = (some 99, some 101) ∧
    validate_and_adjust_prices
        (validate_and_adjust_prices (some 99) (some 101) 100).1
        (validate_and_adjust_prices (some 99) (some 101) 100).2 100
      = validate_and_adjust_prices (some 99) (some 101) 100 := by
  have h := sanitizer_idempotent 100 (some 99) (some 101) (by norm_num)
  refine ⟨h.1 ?_ ?_ ?_, h.2⟩
  · intro b hb
    cases hb
    norm_num
  · intro a haeq
    cases haeq
    norm_num
  · intro b a hb haeq
    cases hb
    cases haeq
    norm_num

/-- C10: the value `calculate_competitive_spread` returns does not
depend on its order-book argument; the book read inside the function
feeds logging only. -/
theorem spread_independent_of_book (st : ProfessionalMarketMaker)
    (b1 b2 : Option Book) :
    calculate_competitive_spread st b1 = calculate_competitive_spread st b2 := rfl

/-- C7: for every engine state, a malformed depth snapshot — falsy or
missing a key (`none`), or with `asks[0][0]` / `bids[-1][0]` absent or
unparsable — makes `generate_intelligent_quotes` return `(None, None)`;
the embedding is total, so no exception escapes. -/
theorem malformed_book_returns_none (st : ProfessionalMarketMaker) (s : ℚ)
    (order_book : Option Book)
    (h : order_book = none ∨
      ∃ ob, order_book = some ob ∧
        ((ob.asks.head?.bind BookLevel.price) = none ∨
         (ob.bids.getLast?.bind BookLevel.price) = none)) :
    generate_intelligent_quotes st s order_book = (none, none) := by
  rcases h with h | ⟨ob, rfl, h⟩
  · subst h
    unfold generate_intelligent_quotes
    split_ifs <;> rfl
  · unfold generate_intelligent_quotes
    split_ifs with h0
    · rfl
    · rcases h with h | h
      · simp only [h]
      · rcases hA : ob.asks.head?.bind BookLevel.price with _ | ma <;>
          simp only [h, hA]

/-- C7 witness: a snapshot missing the `asks` key (falsy book) at a
concrete state yields `(None, None)`. -/
theorem malformed_book_returns_none_witness :
    generate_intelligent_quotes
      { risk_params := defaultRiskParameters
        q := 0, real_q := 0, t := 0, T := 1
        market_regime := MarketRegime.NORMAL
        realized_vol := 0.3, current_spread := 0.01, liquidity_ratio := 1
        dynamic_spread_multiplier := 2, dynamic_order_multiplier := 1
        dynamic_gamma := 0.1, dynamic_Q_max := 0.5
        mid_price := 0, price_log := [], min_quantity := 0
        order_manager := { active_orders := [], last_order_update := 0, update_interval := 0.1 }
        last_position_sync := 0, position_sync_interval := 1 }
      100 none = (none, none) :=
  malformed_book_returns_none _ 100 none (Or.inl rfl)

/-- C3: at inventory ratio at least 0.9 with a well-formed snapshot,
`generate_intelligent_quotes` quotes exactly one side, the unwind side:
long inventory gives `(None, best_bid * (1 + rebate_rate))`, otherwise
`(best_ask * (1 - rebate_rate), None)`. -/
theorem emergency_quote_single_sided (st : ProfessionalMarketMaker)
    (s ma mb : ℚ) (ob : Book) (la lb : BookLevel)
    (hQ : 0 < st.dynamic_Q_max)
    (hr : |st.q| / st.dynamic_Q_max ≥ 0.9)
    (hA : ob.asks.head? = some la) (hAp : la.price = some ma)
    (hB : ob.bids.getLast? = some lb) (hBp : lb.price = some mb) :
    (0 < st.q →
      generate_intelligent_quotes st s (some ob)
        = (none, some (mb * (1 + st.risk_params.rebate_rate)))) ∧
    (¬ 0 < st.q →
      generate_intelligent_quotes st s (some ob)
        = (some (ma * (1 - st.risk_params.rebate_rate)), none)) := by
  have hQ0 : st.dynamic_Q_max ≠ 0 := ne_of_gt hQ
  have e1 : ob.asks.head?.bind BookLevel.price = some ma := by rw [hA]; exact hAp
  have e2 : ob.bids.getLast?.bind BookLevel.price = some mb := by rw [hB]; exact hBp
  constructor
  · intro hq
    unfold generate_intelligent_quotes
    rw [if_neg hQ0]
    simp only [e1, e2]
    unfold quoteTiers
    rw [if_pos hr, if_pos hq]
  · intro hq
    unfold generate_intelligent_quotes
    rw [if_neg hQ0]
    simp only [e1, e2]
    unfold quoteTiers
    rw [if_pos hr, if_neg hq]

/-- C3 witness: `q = 9.5`, `dynamic_Q_max = 10`, best bid 90: the quote
is the single emergency sell at `90 * (1 + rebate_rate)`. -/
theorem emergency_quote_single_sided_witness :
    generate_intelligent_quotes makerCritical 100 (some bookTier)
      = (none, some (90 * (1 + makerCritical.risk_params.rebate_rate))) := by
  have h := emergency_quote_single_sided makerCritical 100 110 90 bookTier
    ⟨some 110, some 1⟩ ⟨some 90, some 1⟩ (by with_unfolding_all decide)
    (by with_unfolding_all decide) rfl rfl rfl rfl
  exact h.1 (by with_unfolding_all decide)

/-- The active branch of `execute_real_hedge`, shared by the parts of
the hedge-threshold claim. -/
lemma hedge_active (st : ProfessionalMarketMaker)
    (h1 : st.risk_params.risk_threshold < |st.real_q|)
    (h2 : st.risk_params.risk_threshold < st.dynamic_Q_max) :
    execute_real_hedge st
      = some (if st.real_q > 0 then Side.sell else Side.buy,
          |st.real_q| * min 1.0 (0.3 + 0.7 *
            ((|st.real_q| - st.risk_params.risk_threshold)
              / (st.dynamic_Q_max - st.risk_params.risk_threshold)))) := by
  have hd : st.dynamic_Q_max - st.risk_params.risk_threshold ≠ 0 := by
    intro hc
    have := sub_eq_zero.mp hc
    linarith
  unfold execute_real_hedge
  rw [if_neg (not_le.mpr h1), if_neg hd]
  split_ifs <;> rfl

/-- C5: `execute_real_hedge` does nothing when the position magnitude
is within the threshold; above it, it sends a market order opposite to
the position sign sized `abs(real_q) * min(1, 0.3 + 0.7 * excess_ratio)`
with `excess_ratio = (abs(real_q) - risk_threshold) / (Q_max -
risk_threshold)`; and at `abs(real_q) = Q_max` the hedge ratio is
exactly 1, so the full position size is sent. -/
theorem hedge_threshold_rule (st : ProfessionalMarketMaker) :
    (|st.real_q| ≤ st.risk_params.risk_threshold →
      execute_real_hedge st = none) ∧
    (st.risk_params.risk_threshold < |st.real_q| →
      st.risk_params.risk_threshold < st.dynamic_Q_max →
      execute_real_hedge st
        = some (if st.real_q > 0 then Side.sell else Side.buy,
            |st.real_q| * min 1.0 (0.3 + 0.7 *
              ((|st.real_q| - st.risk_params.risk_threshold)
                / (st.dynamic_Q_max - st.risk_params.risk_threshold))))) ∧
    (st.risk_params.risk_threshold < st.dynamic_Q_max →
      |st.real_q| = st.dynamic_Q_max →
      execute_real_hedge st
        = some (if st.real_q > 0 then Side.sell else Side.buy, |st.real_q|)) := by
  refine ⟨?_, ?_, ?_⟩
  · intro h
    unfold execute_real_hedge
    rw [if_pos h]
  · intro h1 h2
    exact hedge_active st h1 h2
  · intro h2 he
    have h1 : st.risk_params.risk_threshold < |st.real_q| := by rw [he]; exact h2
    have hd : st.dynamic_Q_max - st.risk_params.risk_threshold ≠ 0 := by
      intro hc
      have := sub_eq_zero.mp hc
      linarith
    rw [hedge_active st h1 h2, he, div_self hd]
    norm_num

/-- C5 witness: with the default threshold 0.3, `real_q = 0.2` is left
unhedged; with `real_q = 1 = dynamic_Q_max` the full size 1 is sold. -/
theorem hedge_threshold_rule_witness :
    execute_real_hedge { baseMaker with real_q := 0.2 } = none ∧
    execute_real_hedge { baseMaker with real_q := 1, dynamic_Q_max := 1 }
      = some (Side.sell, 1) := by
  constructor
  · exact (hedge_threshold_rule _).1 (by with_unfolding_all decide)
  · rw [(hedge_threshold_rule { baseMaker with real_q := 1, dynamic_Q_max := 1 }).2.2
      (by with_unfolding_all decide) (by with_unfolding_all decide)]
    with_unfolding_all decide

/-- A throttled `smart_order_update` call returns `False` with no state
change and no venue call. -/
lemma smart_order_update_throttled (om : OrderManager) (current_time : ℚ)
    (db da : Option ℚ) (size_sol : ℚ) (env : OrderEnv)
    (h : current_time - om.last_order_update < om.update_interval) :
    smart_order_update om current_time db da size_sol env = (false, om, []) := by
  unfold smart_order_update
  rw [if_pos h]

/-- Invariants: `smart_order_update` never changes `update_interval`, and a call
returning `True` stamps `last_order_update` with its call time. -/
lemma smart_order_update_inv (om : OrderManager) (current_time : ℚ)
    (db da : Option ℚ) (size_sol : ℚ) (env : OrderEnv) :
    ((smart_order_update om current_time db da size_sol env).2.1).update_interval
      = om.update_interval ∧
    ((smart_order_update om current_time db da size_sol env).1 = true →
      ((smart_order_update om current_time db da size_sol env).2.1).last_order_update
        = current_time) := by
  unfold smart_order_update
  split_ifs
  · exact ⟨rfl, by intro h; simp at h⟩
  · exact ⟨rfl, by intro h; simp at h⟩
  · refine ⟨?_, fun _ => rfl⟩
    dsimp only
    rcases da with _ | a
    · rcases db with _ | b
      · rfl
      · dsimp only
        split_ifs
        · rfl
        · rcases env.buy_result with _ | oid <;> rfl
    · rcases db with _ | b
      · dsimp only
        split_ifs
        · rfl
        · rcases env.sell_result with _ | oid <;> rfl
      · dsimp only
        split_ifs <;>
          rcases env.buy_result with _ | oid <;>
          rcases env.sell_result with _ | oid2 <;> rfl

/-- C6: a `smart_order_update` call made before 0.1 seconds have passed
since the last successful update returns `False` with no side effect:
no venue call, no change to the tracked map or the timestamp.  Hence a
second call within 0.1 seconds of a successful one performs no venue
mutation. -/
theorem order_update_rate_limited :
    (∀ (om : OrderManager) (current_time : ℚ) (db da : Option ℚ) (sz : ℚ)
       (env : OrderEnv),
      om.update_interval = 0.1 →
      current_time - om.last_order_update < 0.1 →
      smart_order_update om current_time db da sz env = (false, om, [])) ∧
    (∀ (om : OrderManager) (t1 t2 : ℚ) (db1 da1 db2 da2 : Option ℚ)
       (sz1 sz2 : ℚ) (env1 env2 : OrderEnv),
      om.update_interval = 0.1 →
      (smart_order_update om t1 db1 da1 sz1 env1).1 = true →
      t2 - t1 < 0.1 →
      smart_order_update (smart_order_update om t1 db1 da1 sz1 env1).2.1
          t2 db2 da2 sz2 env2
        = (false, (smart_order_update om t1 db1 da1 sz1 env1).2.1, [])) := by
  constructor
  · intro om current_time db da sz env hi hlt
    exact smart_order_update_throttled om current_time db da sz env (by rw [hi]; exact hlt)
  · intro om t1 t2 db1 da1 db2 da2 sz1 sz2 env1 env2 hi hsucc hlt
    have hinv := smart_order_update_inv om t1 db1 da1 sz1 env1
    apply smart_order_update_throttled
    rw [hinv.1, hinv.2 hsucc, hi]
    exact hlt

/-- C6 witness: with the 0.1-second interval, a call at `t = 0.05` after
an update at `t = 0` is rejected unchanged; after a successful call at
`t = 1`, a second call at `t = 1.05` is rejected unchanged. -/
theorem order_update_rate_limited_witness :
    smart_order_update ⟨[], 0, 0.1⟩ 0.05 (some 99) (some 101) 1 envOk
      = (false, ⟨[], 0, 0.1⟩, []) ∧
    smart_order_update
        (smart_order_update ⟨[], 0, 0.1⟩ 1 (some 99) (some 101) 1 envOk).2.1
        1.05 (some 99) (some 101) 1 envOk
      = (false, (smart_order_update ⟨[], 0, 0.1⟩ 1 (some 99) (some 101) 1 envOk).2.1, []) := by
  constructor
  · exact order_update_rate_limited.1 _ _ _ _ _ _ rfl (by norm_num)
  · exact order_update_rate_limited.2 ⟨[], 0, 0.1⟩ 1 1.05 (some 99) (some 101)
      (some 99) (some 101) 1 1 envOk envOk rfl (by with_unfolding_all decide) (by norm_num)

/-- Evaluation of `generate_intelligent_quotes` through its tier block
when the snapshot is well-formed. -/
lemma generate_via_tiers (st : ProfessionalMarketMaker) (s sp ma mb : ℚ) (ob : Book)
    (hQ : ¬ st.dynamic_Q_max = 0)
    (hsp : calculate_competitive_spread st (some ob) = Except.ok sp)
    (e1 : ob.asks.head?.bind BookLevel.price = some ma)
    (e2 : ob.bids.getLast?.bind BookLevel.price = some mb) :
    generate_intelligent_quotes st s (some ob)
      = quoteTiers st.q (|st.q| / st.dynamic_Q_max) st.risk_params.rebate_rate
          s (sp / 2) ma mb := by
  unfold generate_intelligent_quotes
  rw [if_neg hQ]
  simp only [e1, e2, hsp]

/-- C8 counterexample: holding `s = 100` and the computed spread fixed
(half-spread 1), crossing the 0.9 threshold moves the unwind-side ask
from `100.5` (distance `0.5` from mid) to `90 * 1.0001 = 90.009`
(distance `9.991`): the emergency level is *farther* from the mid, so
the unwind side does not move strictly closer at this crossing. -/
theorem tier_monotonicity_counterexample :
    generate_intelligent_quotes makerTierHigh 100 (some bookTier)
      = (some (491/5), some (201/2)) ∧
    generate_intelligent_quotes makerTierCritical 100 (some bookTier)
      = (none, some (90009/1000)) ∧
    ¬ (|(90009 : ℚ)/1000 - 100| < |(201 : ℚ)/2 - 100|) := by
  have hsp : calculate_competitive_spread makerTierHigh (some bookTier)
      = Except.ok 2 := by
    unfold calculate_competitive_spread
    rw [if_neg (by norm_num [makerTierHigh, baseMaker])]
    norm_num [makerTierHigh, baseMaker, defaultRiskParameters, max_def]
  have hspc : calculate_competitive_spread makerTierCritical (some bookTier)
      = Except.ok 2 := by
    unfold calculate_competitive_spread
    rw [if_neg (by norm_num [makerTierCritical, makerTierHigh, baseMaker])]
    norm_num [makerTierCritical, makerTierHigh, baseMaker, defaultRiskParameters, max_def]
  refine ⟨?_, ?_, ?_⟩
  · rw [generate_via_tiers makerTierHigh 100 2 110 90 bookTier
      (by norm_num [makerTierHigh, baseMaker]) hsp rfl rfl]
    rw [show makerTierHigh.q = 8 from rfl, show makerTierHigh.dynamic_Q_max = 10 from rfl,
      show |(8:ℚ)| = 8 from abs_of_pos (by norm_num)]
    unfold quoteTiers
    rw [if_neg (by norm_num), if_pos (by norm_num), if_pos (by norm_num)]
    norm_num
  · rw [generate_via_tiers makerTierCritical 100 2 110 90 bookTier
      (by norm_num [makerTierCritical, makerTierHigh, baseMaker]) hspc rfl rfl]
    rw [show makerTierCritical.q = 9.5 from rfl,
      show makerTierCritical.dynamic_Q_max = 10 from rfl,
      show |(9.5:ℚ)| = 9.5 from abs_of_pos (by norm_num)]
    unfold quoteTiers
    rw [if_pos (by norm_num), if_pos (by norm_num),
      show makerTierCritical.risk_params.rebate_rate = 1/10000 from rfl]
    norm_num
  · rw [abs_of_neg (by norm_num : (90009:ℚ)/1000 - 100 < 0),
      abs_of_pos (by norm_num : (0:ℚ) < (201:ℚ)/2 - 100)]
    norm_num

/-- C8 amended: with the mid-price and the computed half-spread `h > 0`
held fixed, the 0.4 and 0.7 upward crossings move the unwind-side quote
strictly closer to the mid (`1.0 -> 0.9 -> 0.5` half-spreads) and the
accumulate-side quote strictly farther (`1.0 -> 1.3 -> 1.8`); at the
0.9 crossing the accumulate side becomes absent and the unwind side
moves to the emergency level (`best_bid * (1 + rebate)` when long,
`best_ask * (1 - rebate)` when short), which need not be closer to the
mid. -/
theorem tier_monotonicity_amended
    (s h rr ma mb r1 r2 r3 r4 qPos qNeg : ℚ)
    (hh : 0 < h) (hp : 0 < qPos) (hn : qNeg < 0)
    (h1 : r1 < 0.4) (h2a : 0.4 ≤ r2) (h2b : r2 < 0.7)
    (h3a : 0.7 ≤ r3) (h3b : r3 < 0.9) (h4 : 0.9 ≤ r4) :
    (quoteTiers qPos r1 rr s h ma mb = (some (s - h), some (s + h)) ∧
     quoteTiers qPos r2 rr s h ma mb
       = (some (s - h * 1.3), some (s + h * 0.9)) ∧
     quoteTiers qPos r3 rr s h ma mb
       = (some (s - h * 1.8), some (s + h * 0.5)) ∧
     quoteTiers qPos r4 rr s h ma mb = (none, some (mb * (1 + rr)))) ∧
    (|s + h * 0.9 - s| < |s + h - s| ∧ |s + h * 0.5 - s| < |s + h * 0.9 - s| ∧
     |s - h - s| < |s - h * 1.3 - s| ∧ |s - h * 1.3 - s| < |s - h * 1.8 - s|) ∧
    (quoteTiers qNeg r1 rr s h ma mb = (some (s - h), some (s + h)) ∧
     quoteTiers qNeg r2 rr s h ma mb
       = (some (s - h * 0.9), some (s + h * 1.3)) ∧
     quoteTiers qNeg r3 rr s h ma mb
       = (some (s - h * 0.5), some (s + h * 1.8)) ∧
     quoteTiers qNeg r4 rr s h ma mb = (some (ma * (1 - rr)), none)) ∧
    (|s - h * 0.9 - s| < |s - h - s| ∧ |s - h * 0.5 - s| < |s - h * 0.9 - s| ∧
     |s + h - s| < |s + h * 1.3 - s| ∧ |s + h * 1.3 - s| < |s + h * 1.8 - s|) := by
  have hqn : ¬ qNeg > 0 := by push_neg; linarith
  have d1 : ∀ c : ℚ, s + h * c - s = h * c := by intro c; ring
  have d2 : ∀ c : ℚ, s - h * c - s = -(h * c) := by intro c; ring
  have d3 : s + h - s = h := by ring
  have d4 : s - h - s = -h := by ring
  refine ⟨⟨?_, ?_, ?_, ?_⟩, ⟨?_, ?_, ?_, ?_⟩, ⟨?_, ?_, ?_, ?_⟩, ⟨?_, ?_, ?_, ?_⟩⟩
  · unfold quoteTiers
    rw [if_neg (by push_neg; linarith), if_neg (by push_neg; linarith),
      if_neg (by push_neg; linarith)]
  · unfold quoteTiers
    rw [if_neg (by push_neg; linarith), if_neg (by push_neg; linarith),
      if_pos (by linarith : r2 ≥ 0.4), if_pos hp]
  · unfold quoteTiers
    rw [if_neg (by push_neg; linarith), if_pos (by linarith : r3 ≥ 0.7), if_pos hp]
  · unfold quoteTiers
    rw [if_pos (by linarith : r4 ≥ 0.9), if_pos hp]
  · rw [d1, d3, abs_of_pos (by positivity), abs_of_pos hh]; linarith
  · rw [d1, d1, abs_of_pos (by positivity), abs_of_pos (by positivity)]; linarith
  · rw [d2, d4, abs_neg, abs_neg, abs_of_pos hh, abs_of_pos (by positivity)]; linarith
  · rw [d2, d2, abs_neg, abs_neg, abs_of_pos (by positivity),
      abs_of_pos (by positivity)]; linarith
  · unfold quoteTiers
    rw [if_neg (by push_neg; linarith), if_neg (by push_neg; linarith),
      if_neg (by push_neg; linarith)]
  · unfold quoteTiers
    rw [if_neg (by push_neg; linarith), if_neg (by push_neg; linarith),
      if_pos (by linarith : r2 ≥ 0.4), if_neg hqn]
  · unfold quoteTiers
    rw [if_neg (by push_neg; linarith), if_pos (by linarith : r3 ≥ 0.7), if_neg hqn]
  · unfold quoteTiers
    rw [if_pos (by linarith : r4 ≥ 0.9), if_neg hqn]
  · rw [d2, d4, abs_neg, abs_neg, abs_of_pos (by positivity), abs_of_pos hh]; linarith
  · rw [d2, d2, abs_neg, abs_neg, abs_of_pos (by positivity),
      abs_of_pos (by positivity)]; linarith
  · rw [d1, d3, abs_of_pos hh, abs_of_pos (by positivity)]; linarith
  · rw [d1, d1, abs_of_pos (by positivity), abs_of_pos (by positivity)]; linarith

/-- C8 amended witness: the four long-side tiers at `s = 100`, `h = 1`,
best ask 110, best bid 90, ratios 0, 0.5, 0.8, 1. -/
theorem tier_monotonicity_amended_witness :
    quoteTiers 1 0 (1/10000) 100 1 110 90 = (some (100 - 1), some (100 + 1)) ∧
    quoteTiers 1 (1/2) (1/10000) 100 1 110 90
      = (some (100 - 1 * 1.3), some (100 + 1 * 0.9)) ∧
    quoteTiers 1 (4/5) (1/10000) 100 1 110 90
      = (some (100 - 1 * 1.8), some (100 + 1 * 0.5)) ∧
    quoteTiers 1 1 (1/10000) 100 1 110 90 = (none, some (90 * (1 + 1/10000))) := by
  have h := tier_monotonicity_amended 100 1 (1/10000) 110 90 0 (1/2) (4/5) 1 1 (-1)
    (by norm_num) (by norm_num) (by norm_num) (by norm_num) (by norm_num)
    (by norm_num) (by norm_num) (by norm_num) (by norm_num)
  exact ⟨h.1.1, h.1.2.1, h.1.2.2.1, h.1.2.2.2⟩

/-- On every path `sync_real_position` returns `True`: the `except`
branch logs and falls through to `return True`. -/
lemma sync_real_position_fst (st : ProfessionalMarketMaker) (ct : ℚ)
    (qr : Option ℚ) : (sync_real_position st ct qr).1 = true := by
  unfold sync_real_position
  split
  · rfl
  · rcases qr with _ | p <;> rfl

/-- A failed position query leaves the whole state untouched. -/
lemma sync_real_position_failed (st : ProfessionalMarketMaker) (ct : ℚ) :
    (sync_real_position st ct none).2 = st := by
  unfold sync_real_position
  split <;> rfl

/-- Evaluation of `step` on a tick whose sync keeps the state, whose
regime detector is a no-op, and whose quotes pass the truthiness
check. -/
lemma step_eval (nm : NumModel) (st0 stD : ProfessionalMarketMaker)
    (s ct dt : ℚ) (book : Option Book) (qr : Option ℚ) (env : OrderEnv)
    (bq aq : Option ℚ) (detFlag : Bool)
    (hsync : sync_real_position st0 ct qr = (true, st0))
    (hdet : enhanced_market_regime_detection nm { st0 with mid_price := s } book
      = (detFlag, stD))
    (hq : generate_intelligent_quotes stD s book = (bq, aq))
    (ht : (truthy bq || truthy aq) = true) :
    step nm st0 s book ct qr env dt
      = { skipped := false, bid := bq, ask := aq,
          hedge := execute_real_hedge stD,
          submit := some ((smart_order_update stD.order_manager ct bq aq
              (max (calculate_dynamic_order_size stD s / s) stD.min_quantity) env).1,
            (smart_order_update stD.order_manager ct bq aq
              (max (calculate_dynamic_order_size stD s / s) stD.min_quantity) env).2.2),
          state := { stD with
            order_manager := (smart_order_update stD.order_manager ct bq aq
              (max (calculate_dynamic_order_size stD s / s) stD.min_quantity) env).2.1,
            t := stD.t + dt } } := by
  unfold step
  rw [hsync]
  dsimp only
  rw [hdet]
  dsimp only
  rw [hq]
  dsimp only
  rw [ht]
  rfl

/-- C9 counterexample: at a tick where the adapter position query fails
(`query_result = none`, sync interval elapsed), `step` does NOT skip the
remainder of the tick: both quotes are produced and an order update is
submitted.  The skip guard in `step` is dead because
`sync_real_position` always returns `True`. -/
theorem sync_failure_counterexample :
    (step nmZero baseMaker 100 (some bookDemo) 5 none envOk 1).skipped = false ∧
    (step nmZero baseMaker 100 (some bookDemo) 5 none envOk 1).bid
      = some (199971/2000) ∧
    (step nmZero baseMaker 100 (some bookDemo) 5 none envOk 1).ask
      = some (200029/2000) ∧
    (step nmZero baseMaker 100 (some bookDemo) 5 none envOk 1).submit ≠ none := by
  have hsync : sync_real_position baseMaker 5 none = (true, baseMaker) := by
    unfold sync_real_position
    rw [if_neg (by norm_num [baseMaker])]
  have hdet : enhanced_market_regime_detection nmZero
      { baseMaker with mid_price := 100 } (some bookDemo)
      = (false, { baseMaker with mid_price := 100 }) := by
    unfold enhanced_market_regime_detection
    rw [if_pos (by decide)]
  have hsp : calculate_competitive_spread { baseMaker with mid_price := 100 }
      (some bookDemo) = Except.ok (29/1000) := by
    unfold calculate_competitive_spread
    rw [if_neg (by norm_num [baseMaker])]
    norm_num [baseMaker, defaultRiskParameters, abs_zero, max_def]
  have hq : generate_intelligent_quotes { baseMaker with mid_price := 100 } 100
      (some bookDemo) = (some (199971/2000), some (200029/2000)) := by
    rw [generate_via_tiers _ 100 (29/1000) 101 99 bookDemo
      (by norm_num [baseMaker]) hsp rfl rfl]
    have hq0 : ({ baseMaker with mid_price := 100 } : ProfessionalMarketMaker).q
        = (0:ℚ) := rfl
    have hQm : ({ baseMaker with mid_price := 100 } : ProfessionalMarketMaker).dynamic_Q_max
        = (0.5:ℚ) := rfl
    rw [hq0, hQm]
    unfold quoteTiers
    rw [if_neg (by norm_num [abs_zero]), if_neg (by norm_num [abs_zero]),
      if_neg (by norm_num [abs_zero])]
    norm_num
  rw [step_eval nmZero baseMaker { baseMaker with mid_price := 100 } 100 5 1
    (some bookDemo) none envOk (some (199971/2000)) (some (200029/2000)) false
    hsync hdet hq (by norm_num [truthy])]
  exact ⟨rfl, rfl, rfl, by simp⟩

/-- C9 amended: on an adapter position-query failure the engine logs,
keeps the stale position unchanged, and proceeds with the tick rather
than skipping it: `sync_real_position` returns `True` on every path, so
the skip guard in `step` never fires and regime detection, hedging,
quoting and submission still run. -/
theorem sync_failure_tick_proceeds :
    (∀ (st : ProfessionalMarketMaker) (ct : ℚ) (qr : Option ℚ),
      (sync_real_position st ct qr).1 = true) ∧
    (∀ (st : ProfessionalMarketMaker) (ct : ℚ),
      (sync_real_position st ct none).2 = st) ∧
    (∀ (nm : NumModel) (st : ProfessionalMarketMaker) (s : ℚ)
       (book : Option Book) (ct : ℚ) (qr : Option ℚ) (env : OrderEnv) (dt : ℚ),
      (step nm st s book ct qr env dt).skipped = false) := by
  refine ⟨sync_real_position_fst, sync_real_position_failed, ?_⟩
  intro nm st s book ct qr env dt
  unfold step
  rw [if_neg (by simp [sync_real_position_fst])]
  dsimp only
  split <;> rfl

/-- Regime adjustment writes only the four dynamic fields;
the base `RiskParameters` are untouched. -/
lemma adjust_preserves_risk_params (st : ProfessionalMarketMaker) :
    (adjust_parameters_by_regime st).risk_params = st.risk_params := rfl

lemma regimeSignalUpdate_preserves (nm : NumModel) (st : ProfessionalMarketMaker) :
    ((regimeSignalUpdate nm st).2).risk_params = st.risk_params := by
  unfold regimeSignalUpdate
  dsimp only
  repeat' split
  all_goals rfl

lemma detection_preserves_risk_params (nm : NumModel)
    (st : ProfessionalMarketMaker) (book : Option Book) :
    ((enhanced_market_regime_detection nm st book).2).risk_params
      = st.risk_params := by
  unfold enhanced_market_regime_detection
  dsimp only
  repeat' split
  all_goals first | rfl | rw [regimeSignalUpdate_preserves]

lemma sync_preserves_risk_params (st : ProfessionalMarketMaker) (ct : ℚ)
    (qr : Option ℚ) :
    ((sync_real_position st ct qr).2).risk_params = st.risk_params := by
  unfold sync_real_position
  split
  · rfl
  · rcases qr with _ | p <;> rfl

lemma step_preserves_risk_params (nm : NumModel) (st0 : ProfessionalMarketMaker)
    (s : ℚ) (book : Option Book) (ct : ℚ) (qr : Option ℚ) (env : OrderEnv)
    (dt : ℚ) :
    (step nm st0 s book ct qr env dt).state.risk_params = st0.risk_params := by
  unfold step
  dsimp only
  split
  · rw [sync_preserves_risk_params]
  · split <;>
      · dsimp only
        rw [detection_preserves_risk_params]
        dsimp only
        rw [sync_preserves_risk_params]

lemma afterReinit_fields (nm : NumModel) (rs : RunState) (s : ℚ)
    (book : Option Book) (ct : ℚ) (qr : Option ℚ) (env : OrderEnv) (dt : ℚ) :
    (afterReinit nm rs s book ct qr env dt).mm.risk_params = rs.mm.risk_params ∧
    (afterReinit nm rs s book ct qr env dt).reinit_q_max = rs.reinit_q_max := by
  unfold afterReinit
  refine ⟨?_, rfl⟩
  dsimp only
  rw [step_preserves_risk_params]

/-- First valid tick of `run()`: the flag flips and the risk fields are
re-derived from the (possibly floored) base order size and the mid. -/
lemma runTick_first_tick (nm : NumModel) (rs : RunState)
    (bids asks : List BookLevel) (ct : ℚ) (qr : Option ℚ) (env : OrderEnv)
    (dt : ℚ) (b0 a0 : ℚ) (brest arest : List ℚ)
    (hflag : rs.reinit_q_max = false)
    (hbf : (if bids.isEmpty then some [] else (lastN 5 bids).mapM BookLevel.price)
      = some (b0 :: brest))
    (haf : (if asks.isEmpty then some [] else (asks.take 5).mapM BookLevel.price)
      = some (a0 :: arest))
    (hs : 0 < (brest.foldl max b0 + arest.foldl min a0) / 2) :
    (runTick nm rs bids asks ct qr env dt).reinit_q_max = true ∧
    (runTick nm rs bids asks ct qr env dt).mm.risk_params.risk_threshold
      = (if rs.mm.risk_params.base_order_size_usd ≤ 10 then (50:ℚ)
          else rs.mm.risk_params.base_order_size_usd) * 5
        / ((brest.foldl max b0 + arest.foldl min a0) / 2) ∧
    (runTick nm rs bids asks ct qr env dt).mm.risk_params.Q_max
      = (if rs.mm.risk_params.base_order_size_usd ≤ 10 then (50:ℚ)
          else rs.mm.risk_params.base_order_size_usd) * 5
        / ((brest.foldl max b0 + arest.foldl min a0) / 2) * 2 := by
  unfold runTick
  rw [hbf, haf]
  dsimp only
  rw [if_pos hflag, if_neg (ne_of_gt hs)]
  have hA := afterReinit_fields nm
    { mm := { { rs.mm with
          current_spread := arest.foldl min a0 - brest.foldl max b0 } with
        risk_params :=
          { (if rs.mm.risk_params.base_order_size_usd ≤ 10
              then { rs.mm.risk_params with base_order_size_usd := 50 }
              else rs.mm.risk_params) with
            risk_threshold :=
              (if rs.mm.risk_params.base_order_size_usd ≤ 10
                then { rs.mm.risk_params with base_order_size_usd := 50 }
                else rs.mm.risk_params).base_order_size_usd * 5
                / ((brest.foldl max b0 + arest.foldl min a0) / 2)
            Q_max :=
              (if rs.mm.risk_params.base_order_size_usd ≤ 10
                then { rs.mm.risk_params with base_order_size_usd := 50 }
                else rs.mm.risk_params).base_order_size_usd * 5
                / ((brest.foldl max b0 + arest.foldl min a0) / 2) * 2 }
        dynamic_gamma :=
          (if rs.mm.risk_params.base_order_size_usd ≤ 10
            then { rs.mm.risk_params with base_order_size_usd := 50 }
            else rs.mm.risk_params).gamma
        dynamic_Q_max :=
          (if rs.mm.risk_params.base_order_size_usd ≤ 10
            then { rs.mm.risk_params with base_order_size_usd := 50 }
            else rs.mm.risk_params).base_order_size_usd * 5
            / ((brest.foldl max b0 + arest.foldl min a0) / 2) * 2 }
      reinit_q_max := true
      recent_returns := rs.recent_returns }
    ((brest.foldl max b0 + arest.foldl min a0) / 2)
    (some { bids := lastN 5 bids, asks := asks.take 5 }) ct qr env dt
  by_cases hb : rs.mm.risk_params.base_order_size_usd ≤ 10 <;>
    simp only [hb, if_true, if_false, ite_true, ite_false] at hA ⊢ <;>
    exact ⟨hA.2, by rw [hA.1], by rw [hA.1]⟩

/-- After the one-time block has run, no later tick changes
`risk_threshold` or `Q_max`, and the flag stays set. -/
lemma runTick_frozen (nm : NumModel) (rs : RunState)
    (bids asks : List BookLevel) (ct : ℚ) (qr : Option ℚ) (env : OrderEnv)
    (dt : ℚ) (hflag : rs.reinit_q_max = true) :
    (runTick nm rs bids asks ct qr env dt).mm.risk_params.risk_threshold
      = rs.mm.risk_params.risk_threshold ∧
    (runTick nm rs bids asks ct qr env dt).mm.risk_params.Q_max
      = rs.mm.risk_params.Q_max ∧
    (runTick nm rs bids asks ct qr env dt).reinit_q_max = true := by
  unfold runTick
  dsimp only
  repeat' split
  all_goals try exact ⟨rfl, rfl, hflag⟩
  all_goals try (solve | simp_all)
  all_goals
    exact ⟨(congrArg RiskParameters.risk_threshold
        (afterReinit_fields _ _ _ _ _ _ _ _).1).trans rfl,
      (congrArg RiskParameters.Q_max
        (afterReinit_fields _ _ _ _ _ _ _ _).1).trans rfl,
      ((afterReinit_fields _ _ _ _ _ _ _ _).2).trans hflag⟩

/-- C4 counterexample: with configured `base_order_size_usd = 10` and
first mid-price 100, the code first replaces the base by 50 and derives
`risk_threshold = 50 * 5 / 100 = 2.5`, not the claimed
`5 * base / s = 0.5`. -/
theorem reinit_formula_counterexample :
    (runTick nmZero rsInit [⟨some 99, some 1⟩] [⟨some 101, some 1⟩]
        5 (some 0) envOk 1).mm.risk_params.risk_threshold = 5/2 ∧
    ¬ ((5:ℚ)/2 = 5 * 10 / 100) := by
  have h := runTick_first_tick nmZero rsInit [⟨some 99, some 1⟩]
    [⟨some 101, some 1⟩] 5 (some 0) envOk 1 99 101 [] [] rfl rfl rfl (by norm_num)
  refine ⟨?_, by norm_num⟩
  rw [h.2.1]
  norm_num [rsInit, baseMaker, defaultRiskParameters]

/-- C4 amended: on the first tick with a valid (positive) mid-price `s`,
`risk_threshold` and `Q_max` are re-derived as `risk_threshold = 5*b/s`
and `Q_max = 2*risk_threshold`, where `b` is the configured base order
size except that a configured value of at most 10 is first replaced by
50; the one-shot flag is set, every later tick leaves both fields
unchanged, and `_adjust_parameters_by_regime` never writes the base
`RiskParameters`. -/
theorem reinit_once_then_frozen :
    (∀ (nm : NumModel) (rs : RunState) (bids asks : List BookLevel) (ct : ℚ)
       (qr : Option ℚ) (env : OrderEnv) (dt : ℚ) (b0 a0 : ℚ)
       (brest arest : List ℚ),
      rs.reinit_q_max = false →
      (if bids.isEmpty then some [] else (lastN 5 bids).mapM BookLevel.price)
        = some (b0 :: brest) →
      (if asks.isEmpty then some [] else (asks.take 5).mapM BookLevel.price)
        = some (a0 :: arest) →
      0 < (brest.foldl max b0 + arest.foldl min a0) / 2 →
      (runTick nm rs bids asks ct qr env dt).reinit_q_max = true ∧
      (runTick nm rs bids asks ct qr env dt).mm.risk_params.risk_threshold
        = (if rs.mm.risk_params.base_order_size_usd ≤ 10 then (50:ℚ)
            else rs.mm.risk_params.base_order_size_usd) * 5
          / ((brest.foldl max b0 + arest.foldl min a0) / 2) ∧
      (runTick nm rs bids asks ct qr env dt).mm.risk_params.Q_max
        = (if rs.mm.risk_params.base_order_size_usd ≤ 10 then (50:ℚ)
            else rs.mm.risk_params.base_order_size_usd) * 5
          / ((brest.foldl max b0 + arest.foldl min a0) / 2) * 2) ∧
    (∀ (nm : NumModel) (rs : RunState) (bids asks : List BookLevel) (ct : ℚ)
       (qr : Option ℚ) (env : OrderEnv) (dt : ℚ),
      rs.reinit_q_max = true →
      (runTick nm rs bids asks ct qr env dt).mm.risk_params.risk_threshold
        = rs.mm.risk_params.risk_threshold ∧
      (runTick nm rs bids asks ct qr env dt).mm.risk_params.Q_max
        = rs.mm.risk_params.Q_max ∧
      (runTick nm rs bids asks ct qr env dt).reinit_q_max = true) ∧
    (∀ st : ProfessionalMarketMaker,
      (adjust_parameters_by_regime st).risk_params = st.risk_params) :=
  ⟨fun nm rs bids asks ct qr env dt b0 a0 brest arest hflag hbf haf hs =>
      runTick_first_tick nm rs bids asks ct qr env dt b0 a0 brest arest
        hflag hbf haf hs,
    fun nm rs bids asks ct qr env dt hflag =>
      runTick_frozen nm rs bids asks ct qr env dt hflag,
    fun _ => rfl⟩

/-- C4 witness: the first tick at mid 100 with configured base 10 sets
the flag and gives `Q_max = 5`; a later tick with the flag set leaves
`risk_threshold` unchanged. -/
theorem reinit_once_then_frozen_witness :
    (runTick nmZero rsInit [⟨some 99, some 1⟩] [⟨some 101, some 1⟩]
        5 (some 0) envOk 1).reinit_q_max = true ∧
    (runTick nmZero rsInit [⟨some 99, some 1⟩] [⟨some 101, some 1⟩]
        5 (some 0) envOk 1).mm.risk_params.Q_max = 5 ∧
    (runTick nmZero { rsInit with reinit_q_max := true } [⟨some 99, some 1⟩]
        [⟨some 101, some 1⟩] 5 (some 0) envOk 1).mm.risk_params.risk_threshold
      = rsInit.mm.risk_params.risk_threshold := by
  have h := reinit_once_then_frozen.1 nmZero rsInit [⟨some 99, some 1⟩]
    [⟨some 101, some 1⟩] 5 (some 0) envOk 1 99 101 [] [] rfl rfl rfl (by norm_num)
  have h2 := reinit_once_then_frozen.2.1 nmZero { rsInit with reinit_q_max := true }
    [⟨some 99, some 1⟩] [⟨some 101, some 1⟩] 5 (some 0) envOk 1 rfl
  refine ⟨h.1, ?_, h2.1.trans rfl⟩
  rw [h.2.2]
  norm_num [rsInit, baseMaker, defaultRiskParameters]
